import Mathlib

/-!
Shallow embedding of `timeseries/storage_manager.py`: a file-backed
persistent store with an in-memory recency cache (`FileStorageManager`),
and the storage-backed handle class `SMTimeSeries` built on top of it.
-/

/-- Identifiers: the Python code uses strings and ints as dict keys; modelled
as `Int` (the `str(ident)` conversion in `SMTimeSeries.__init__` is an
injective renaming that no property here depends on). -/
abbrev Ident := Int

/-- A time series as stored: paired timestamp and value sequences
(`ArrayTimeSeries` holds two numeric arrays; values are modelled as integers,
which the `.npy` round trip preserves exactly, as it does 64-bit floats). -/
structure TimeSeries where
  times : List Int
  vals : List Int
deriving DecidableEq

/-- Failures at the manager boundary: `KeyError` (identifier not found) and
an underlying I/O error from `np.save` / `np.load`. -/
inductive Err where
  | notFound
  | ioFailure
deriving DecidableEq

/-- A durable artifact on disk: readable content, or a file whose read fails
with an I/O error (the fault model for `np.load` on an existing file). -/
inductive Artifact (α : Type) where
  | ok (ts : α)
  | ioError
deriving DecidableEq

/-- Python dict lookup `d[k]`, as an association-list lookup. -/
def lookup? {α : Type} (d : List (Ident × α)) (k : Ident) : Option α :=
  (d.find? (fun p => p.1 == k)).map (fun p => p.2)

/-- Python `del d[k]` (keys are unique in every dict the code builds). -/
def eraseKey {α : Type} (d : List (Ident × α)) (k : Ident) : List (Ident × α) :=
  d.filter (fun p => p.1 != k)

/-- Python dict assignment `d[k] = v` (insert or overwrite). -/
def insertKey {α : Type} (d : List (Ident × α)) (k : Ident) (v : α) : List (Ident × α) :=
  eraseKey d k ++ [(k, v)]

/-- The state of a `FileStorageManager`. `storage` models the directory of
`.npy` artifacts (one per identifier); the other fields mirror the attributes
set in `__init__`. `_cache_size_max` and `_cache_trim` are Python floats,
modelled as exact rationals; `_cache_size` stays a Python `int` throughout
the code (it only ever has `sys.getsizeof` results added and their sums
subtracted), hence `Int`. -/
structure FileStorageManager (α : Type) where
  storage : List (Ident × Artifact α)
  cache : List (Ident × α)
  cache_size_max : ℚ
  cache_order : List Ident
  cache_trim : ℚ
  cache_size : Int

namespace FileStorageManager

/-- `FileStorageManager.__init__` (directory creation is not modelled):
empty cache, `_cache_size_max = max_cache_size * 1024`,
`_cache_trim = 0.2`, `_cache_size = 0`. -/
def init (α : Type) (max_cache_size : ℚ) : FileStorageManager α :=
  { storage := []
    cache := []
    cache_size_max := max_cache_size * 1024
    cache_order := []
    cache_trim := 1/5
    cache_size := 0 }

/-- The trimming loop inside `_cache_store`:
`while trimmed < trimsize and i < len(self._cache_order)`, whose body adds
`sys.getsizeof(self._cache[self._cache_order[i]])` to `trimmed` but deletes
`self._cache[self._cache_order[0]]` and `self._cache_order[0]`, then
increments `i`. `sz` models `sys.getsizeof`. The `getD` defaults are never
hit: the guard ensures `i < length`, and every queued identifier is cached
in reachable states (Python would raise there otherwise). -/
def evictLoop {α : Type} (sz : α → Nat) (cache : List (Ident × α)) (order : List Ident)
    (trimsize : ℚ) (trimmed : Nat) (i : Nat) :
    List (Ident × α) × List Ident × Nat :=
  match order with
  | [] => (cache, [], trimmed)
  | o0 :: rest =>
    if (trimmed : ℚ) < trimsize ∧ i < (o0 :: rest).length then
      let szi := ((lookup? cache ((o0 :: rest).getD i 0)).map sz).getD 0
      evictLoop sz (eraseKey cache o0) rest trimsize (trimmed + szi) (i + 1)
    else (cache, o0 :: rest, trimmed)

/-- `FileStorageManager._cache_store`: add the new footprint to
`_cache_size`; if the result exceeds `_cache_size_max`, run the trimming
loop and subtract its `trimmed` total; then overwrite `_cache[ident]`, drop
`ident` from `_cache_order` if present (the `try/except` around
`index`), and append it at the tail. -/
def _cache_store {α : Type} (sz : α → Nat) (s : FileStorageManager α)
    (ident : Ident) (ts : α) : FileStorageManager α :=
  let s1 := { s with cache_size := s.cache_size + (sz ts : Int) }
  let s2 :=
    if (s1.cache_size : ℚ) > s1.cache_size_max then
      let r := evictLoop sz s1.cache s1.cache_order (s1.cache_trim * s1.cache_size_max) 0 0
      { s1 with cache := r.1, cache_order := r.2.1,
                cache_size := s1.cache_size - (r.2.2 : Int) }
    else s1
  { s2 with cache := insertKey s2.cache ident ts,
            cache_order := s2.cache_order.erase ident ++ [ident] }

/-- `FileStorageManager._cache_get`: `KeyError` (here `none`) on a cache
miss, with no state change; on a hit, move `ident` to the tail of
`_cache_order` ("fresh") and return the cached series. -/
def _cache_get {α : Type} (s : FileStorageManager α) (ident : Ident) :
    Option (α × FileStorageManager α) :=
  match lookup? s.cache ident with
  | none => none
  | some ts =>
    some (ts, { s with cache_order := s.cache_order.erase ident ++ [ident] })

/-- `FileStorageManager.store`: `np.save` the two equal-length rows to the
artifact for `ident` (overwriting any existing artifact), then
`_cache_store` the same series. `writeOk` injects the possible `np.save`
failure (permissions, disk full): when it is false the exception propagates
before any cache mutation, so the returned state is the input state. -/
def store {α : Type} (sz : α → Nat) (writeOk : Bool) (s : FileStorageManager α)
    (ident : Ident) (ts : α) : Except Err Unit × FileStorageManager α :=
  if writeOk then
    let s1 := { s with storage := insertKey s.storage ident (Artifact.ok ts) }
    (Except.ok (), _cache_store sz s1 ident ts)
  else
    (Except.error Err.ioFailure, s)

/-- `FileStorageManager.get`: try `_cache_get`; on any failure try
`np.load` plus `_cache_store` (read-through); the bare `except:` turns any
failure of that second attempt — a missing artifact and an I/O error on an
existing artifact alike — into `KeyError` (`Err.notFound`). -/
def get {α : Type} (sz : α → Nat) (s : FileStorageManager α) (ident : Ident) :
    Except Err α × FileStorageManager α :=
  match _cache_get s ident with
  | some (ts, s') => (Except.ok ts, s')
  | none =>
    match lookup? s.storage ident with
    | some (Artifact.ok a) => (Except.ok a, _cache_store sz s ident a)
    | some Artifact.ioError => (Except.error Err.notFound, s)
    | none => (Except.error Err.notFound, s)

/-- `FileStorageManager.size`: `len(self.get(ident))`; `len` models the
stored series' `__len__`, and failures of `get` propagate unchanged. -/
def size {α : Type} (sz : α → Nat) (len : α → Nat) (s : FileStorageManager α)
    (ident : Ident) : Except Err Nat × FileStorageManager α :=
  match get sz s ident with
  | (Except.ok a, s') => (Except.ok (len a), s')
  | (Except.error e, s') => (Except.error e, s')

end FileStorageManager

/-- Python's `hash` on a tuple of numbers, modelled as a fixed deterministic
fold: the properties considered depend only on `hash` being a pure function
of the content within one process. -/
def tupleHash (xs : List Int) : Int :=
  xs.foldl (fun h x => h * 1000003 + x) 5381

/-- `hash((tuple(time_points), tuple(data_points)))` from
`SMTimeSeries.__init__`. -/
def contentHash (time_points data_points : List Int) : Int :=
  tupleHash time_points * 1000003 + tupleHash data_points

/-- Identifier selection in `SMTimeSeries.__init__`: the supplied identifier
when there is one, else the content hash of the data. -/
def smIdent (time_points data_points : List Int) (ident : Option Ident) : Ident :=
  match ident with
  | some i => i
  | none => contentHash time_points data_points

/-- `SMTimeSeries.__init__` with data supplied, acting on storage-manager
state `s`: derive the identifier and `store` the series
(`ArrayTimeSeries(time_points, data_points)`) under it. Returns the handle's
`_ident` and the manager state after the store. -/
def smtsInit (sz : TimeSeries → Nat) (s : FileStorageManager TimeSeries)
    (time_points data_points : List Int) (ident : Option Ident) :
    Ident × FileStorageManager TimeSeries :=
  let i := smIdent time_points data_points ident
  (i, (FileStorageManager.store sz true s i ⟨time_points, data_points⟩).2)

/-- Manager selection in `SMTimeSeries.__init__`: manager objects are
modelled by reference tags (`Nat`); `cls` is the class attribute
`SMTimeSeries._fsm` (`none` when unset) and `freshRef` stands for the
`FileStorageManager()` constructed when no default exists. Returns the
manager the new handle binds to (`self._sm`) and the class attribute
afterwards. -/
def smtsSelectSM (cls : Option Nat) (freshRef : Nat) (sm : Option Nat) :
    Nat × Option Nat :=
  match sm with
  | some m => (m, cls)
  | none =>
    match cls with
    | some m => (m, some m)
    | none => (freshRef, some freshRef)

/-- The class-attribute updates performed by `SMTimeSeries.from_db`: `fsm`,
when supplied, is assigned to `SMTimeSeries._fsm` before anything else; a
still-missing default is then replaced by a fresh manager. The subsequent
`get` and `cls(ident=ident)` do not change `_fsm` further (`__init__` runs
the `sm is None` branch with `_fsm` already set), and the assignments
persist even when the lookup fails, since they precede the `try`. Returns
the class attribute after the call. -/
def smtsFromDb (cls : Option Nat) (freshRef : Nat) (fsm : Option Nat) :
    Option Nat :=
  let cls1 := match fsm with
    | some f => some f
    | none => cls
  match cls1 with
  | none => some freshRef
  | some m => some m

/-- Concrete run for the cache-bound analysis: budget exactly 1000 bytes
(`max_cache_size = 1000/1024` MB), trim fraction `0.2`, five stores with
footprints 1, 990, 1, 990, 1 — every footprint individually under the
budget. `sz` is `id`: the cached "series" are their own footprints, which is
legitimate since `_cache_store` treats the series and `sys.getsizeof`
opaquely. -/
def c1Run : FileStorageManager Nat :=
  let s0 := FileStorageManager.init Nat (1000/1024)
  let s1 := (FileStorageManager.store id true s0 1 1).2
  let s2 := (FileStorageManager.store id true s1 2 990).2
  let s3 := (FileStorageManager.store id true s2 3 1).2
  let s4 := (FileStorageManager.store id true s3 4 990).2
  (FileStorageManager.store id true s4 5 1).2

/-- Concrete state for the eviction-pass analysis: budget 1000, trim
fraction `0.2`, cache holding footprints 50, 500, 50 under identifiers
1, 2, 3 (tracked size 600). -/
def c2Before : FileStorageManager Nat :=
  let s0 := FileStorageManager.init Nat (1000/1024)
  let s1 := (FileStorageManager.store id true s0 1 50).2
  let s2 := (FileStorageManager.store id true s1 2 500).2
  (FileStorageManager.store id true s2 3 50).2

/-- `c2Before` after inserting a footprint-500 series under identifier 4,
which makes the tracked size 1100 > 1000 and triggers an eviction pass. -/
def c2After : FileStorageManager Nat :=
  FileStorageManager._cache_store id c2Before 4 500

/-- A manager whose cache holds one entry, identifier 1 with footprint 10,
well under the 4096-byte budget (the durable artifact is present, as the
code guarantees for every cached entry). -/
def c3S : FileStorageManager Nat :=
  { storage := [(1, Artifact.ok 10)]
    cache := [(1, 10)]
    cache_size_max := 4096
    cache_order := [1]
    cache_trim := 1/5
    cache_size := 10 }

/-- A manager with an empty cache and one durable artifact, identifier 1,
whose read fails with an underlying I/O error. -/
def c7S : FileStorageManager TimeSeries :=
  { storage := [(1, Artifact.ioError)]
    cache := []
    cache_size_max := 4096
    cache_order := []
    cache_trim := 1/5
    cache_size := 0 }

/-- A manager caching identifiers 5 (footprint 42) and 6 (footprint 7),
with 5 the staler of the two in the recency queue. -/
def c8S : FileStorageManager Nat :=
  { storage := [(5, Artifact.ok 42), (6, Artifact.ok 7)]
    cache := [(5, 42), (6, 7)]
    cache_size_max := 4096
    cache_order := [6, 5]
    cache_trim := 1/5
    cache_size := 49 }

theorem find?_eraseKey_self {α : Type} (d : List (Ident × α)) (k : Ident) :
    (eraseKey d k).find? (fun p => p.1 == k) = none := by
  apply List.find?_eq_none.mpr
  intro p hp
  have h := (List.mem_filter.mp hp).2
  simpa using h

theorem lookup?_insertKey_self {α : Type} (d : List (Ident × α)) (k : Ident) (v : α) :
    lookup? (insertKey d k v) k = some v := by
  unfold lookup? insertKey
  rw [List.find?_append, find?_eraseKey_self]
  simp

theorem cache_store_storage {α : Type} (sz : α → Nat) (s : FileStorageManager α)
    (ident : Ident) (ts : α) :
    (FileStorageManager._cache_store sz s ident ts).storage = s.storage := by
  unfold FileStorageManager._cache_store
  dsimp only
  split <;> rfl

theorem lookup?_cache_store_self {α : Type} (sz : α → Nat) (s : FileStorageManager α)
    (ident : Ident) (ts : α) :
    lookup? (FileStorageManager._cache_store sz s ident ts).cache ident = some ts :=
  lookup?_insertKey_self _ ident ts

theorem lookup?_store_cache {α : Type} (sz : α → Nat) (s : FileStorageManager α)
    (ident : Ident) (ts : α) :
    lookup? (FileStorageManager.store sz true s ident ts).2.cache ident = some ts :=
  lookup?_cache_store_self sz _ ident ts

theorem lookup?_store_storage {α : Type} (sz : α → Nat) (s : FileStorageManager α)
    (ident : Ident) (ts : α) :
    lookup? (FileStorageManager.store sz true s ident ts).2.storage ident
      = some (Artifact.ok ts) := by
  have h : (FileStorageManager.store sz true s ident ts).2.storage
      = insertKey s.storage ident (Artifact.ok ts) := by
    show (FileStorageManager._cache_store sz
        { s with storage := insertKey s.storage ident (Artifact.ok ts) } ident ts).storage = _
    rw [cache_store_storage]
  rw [h]
  exact lookup?_insertKey_self _ _ _

theorem cache_get_hit {α : Type} (s : FileStorageManager α) (ident : Ident) (ts : α)
    (h : lookup? s.cache ident = some ts) :
    FileStorageManager._cache_get s ident
      = some (ts, { s with cache_order := s.cache_order.erase ident ++ [ident] }) := by
  unfold FileStorageManager._cache_get
  rw [h]

theorem cache_get_miss {α : Type} (s : FileStorageManager α) (ident : Ident)
    (h : lookup? s.cache ident = none) : FileStorageManager._cache_get s ident = none := by
  unfold FileStorageManager._cache_get
  rw [h]

theorem get_cache_hit {α : Type} (sz : α → Nat) (s : FileStorageManager α) (ident : Ident)
    (ts : α) (s' : FileStorageManager α) (h : FileStorageManager._cache_get s ident = some (ts, s')) :
    FileStorageManager.get sz s ident = (Except.ok ts, s') := by
  unfold FileStorageManager.get
  rw [h]

theorem get_miss_none {α : Type} (sz : α → Nat) (s : FileStorageManager α) (ident : Ident)
    (h1 : lookup? s.cache ident = none) (h2 : lookup? s.storage ident = none) :
    FileStorageManager.get sz s ident = (Except.error Err.notFound, s) := by
  unfold FileStorageManager.get
  rw [cache_get_miss s ident h1, h2]

theorem get_disk_io_error {α : Type} (sz : α → Nat) (s : FileStorageManager α) (ident : Ident)
    (h1 : lookup? s.cache ident = none)
    (h2 : lookup? s.storage ident = some Artifact.ioError) :
    FileStorageManager.get sz s ident = (Except.error Err.notFound, s) := by
  unfold FileStorageManager.get
  rw [cache_get_miss s ident h1, h2]

/-- Claim C1: the code is evaluated at the failing input `c1Run` (budget
1000, trim fraction 0.2, stores of footprints 1, 990, 1, 990, 1, each
individually under budget). After the eviction pass triggered by the final
footprint-1 store, the tracked cumulative cache size is 1980, which exceeds
the max budget by far more than that item's footprint (bound 1000 + 1): the
trimming loop reads `_cache_order[i]` but deletes `_cache_order[0]` while
`i` races the shrinking list, so it stops after at most half the queue and
subtracts the footprints of the wrong entries. -/
theorem c1_tracked_size_exceeds_budget_plus_trigger :
    c1Run.cache_size_max = 1000 ∧
    c1Run.cache_size = 1980 ∧
    ¬ ((c1Run.cache_size : ℚ) ≤ c1Run.cache_size_max + 1) := by
  refine ⟨?_, ?_, ?_⟩ <;>
    norm_num [c1Run, FileStorageManager.store, FileStorageManager._cache_store,
      FileStorageManager.evictLoop, FileStorageManager.init, lookup?, insertKey, eraseKey]

/-- Claim C2: the code is evaluated at the failing input `c2Before` (cache
footprints 50, 500, 50 under identifiers 1, 2, 3, budget 1000, trim
fraction 0.2) with an insertion of footprint 500 under identifier 4. The
pass does remove from the head, oldest first (identifiers 1 then 2), but it
stops with its freed-size counter at 100 < 0.2 × 1000 = 200 while
identifier 3 is still queued, and it decreases the tracked size by that
counter (1100 − 1000 = 100) instead of by the 50 + 500 = 550 footprint of
the entries it actually removed. -/
theorem c2_eviction_pass_divergence :
    c2Before.cache = [(1, 50), (2, 500), (3, 50)] ∧
    c2Before.cache_order = [1, 2, 3] ∧
    c2Before.cache_size = 600 ∧
    c2After.cache = [(3, 50), (4, 500)] ∧
    c2After.cache_order = [3, 4] ∧
    c2After.cache_size = 1000 ∧
    c2Before.cache_size + 500 - c2After.cache_size = 100 ∧
    ((100 : ℚ) < c2Before.cache_trim * c2Before.cache_size_max) ∧
    c2After.cache_size ≠ c2Before.cache_size + 500 - (50 + 500) := by
  refine ⟨?_, ?_, ?_, ?_, ?_, ?_, ?_, ?_, ?_⟩ <;>
    norm_num [c2Before, c2After, FileStorageManager.store, FileStorageManager._cache_store,
      FileStorageManager.evictLoop, FileStorageManager.init, lookup?, insertKey, eraseKey]

/-- Claim C3 counterexample: identifier 1 is cached with footprint 10 and
the tracked size is 10; overwriting it with a new series of footprint 10
should, per the claim, change the tracked size by the delta 10 − 10 = 0 and
leave it at 10, but `_cache_store` adds the full new footprint and reaches
20. -/
theorem c3_overwrite_delta_counterexample :
    lookup? c3S.cache 1 = some 10 ∧
    c3S.cache_size = 10 ∧
    (FileStorageManager._cache_store id c3S 1 10).cache_size = 20 ∧
    (FileStorageManager._cache_store id c3S 1 10).cache_size
      ≠ c3S.cache_size + ((10 : Int) - 10) := by
  refine ⟨rfl, rfl, by decide, by decide⟩

/-- Claim C3 (amended): overwriting a cached identifier increases the
tracked cumulative size by the full footprint of the new series; the prior
entry's footprint is not subtracted. (Stated for the case where the updated
size stays within budget, so that no trimming pass runs on top.) -/
theorem c3_overwrite_adds_full_new_footprint {α : Type} (sz : α → Nat)
    (s : FileStorageManager α) (ident : Ident) (ts old : α)
    (hmem : lookup? s.cache ident = some old)
    (hsmall : ¬ (((s.cache_size + (sz ts : Int) : Int) : ℚ) > s.cache_size_max)) :
    (FileStorageManager._cache_store sz s ident ts).cache_size
      = s.cache_size + sz ts := by
  unfold FileStorageManager._cache_store
  dsimp only
  rw [if_neg hsmall]

/-- Witness for the amended claim C3 at `c3S`: overwriting identifier 1
(old footprint 10) with a footprint-10 series yields tracked size
10 + 10 = 20. -/
theorem c3_overwrite_adds_full_new_footprint_witness :
    (FileStorageManager._cache_store id c3S 1 10).cache_size
      = c3S.cache_size + ((10 : Nat) : Int) :=
  c3_overwrite_adds_full_new_footprint id c3S 1 10 10 rfl (by decide)

/-- Claim C4: `store` with a failing durable write returns the I/O failure
and the entire manager state — cache map, recency queue, tracked size and
storage — unchanged; with a succeeding durable write it returns success and
has populated both the durable artifact and the cache with the same
series. -/
theorem c4_store_write_through_or_unchanged {α : Type} (sz : α → Nat)
    (s : FileStorageManager α) (ident : Ident) (ts : α) :
    FileStorageManager.store sz false s ident ts = (Except.error Err.ioFailure, s) ∧
    (FileStorageManager.store sz true s ident ts).1 = Except.ok () ∧
    lookup? (FileStorageManager.store sz true s ident ts).2.storage ident
      = some (Artifact.ok ts) ∧
    lookup? (FileStorageManager.store sz true s ident ts).2.cache ident = some ts :=
  ⟨rfl, rfl, lookup?_store_storage sz s ident ts, lookup?_store_cache sz s ident ts⟩

/-- Claim C5: for any valid series (equal-length timestamp and value
sequences), `get ident` immediately after `store ident ts` returns a series
whose timestamps and values are element-wise identical to those of `ts`. -/
theorem c5_store_then_get_round_trip (sz : TimeSeries → Nat)
    (s : FileStorageManager TimeSeries) (ident : Ident) (ts : TimeSeries)
    (hlen : ts.times.length = ts.vals.length) :
    ∃ r, (FileStorageManager.get sz (FileStorageManager.store sz true s ident ts).2 ident).1
        = Except.ok r ∧
      r.times = ts.times ∧ r.vals = ts.vals := by
  refine ⟨ts, ?_, rfl, rfl⟩
  have h := lookup?_store_cache sz s ident ts
  rw [get_cache_hit sz _ ident ts _ (cache_get_hit _ ident ts h)]

/-- Witness for claim C5: storing `⟨[1, 2], [3, 4]⟩` under identifier 7 in a
fresh manager and getting it back returns the identical series. -/
theorem c5_store_then_get_round_trip_witness :
    ∃ r, (FileStorageManager.get (fun _ => 1)
        (FileStorageManager.store (fun _ => 1) true
          (FileStorageManager.init TimeSeries 4) 7 ⟨[1, 2], [3, 4]⟩).2 7).1
        = Except.ok r ∧
      r.times = [1, 2] ∧ r.vals = [3, 4] :=
  c5_store_then_get_round_trip (fun _ => 1) (FileStorageManager.init TimeSeries 4) 7
    ⟨[1, 2], [3, 4]⟩ rfl

/-- Claim C6: for an identifier absent from both the cache and the durable
store, `get` and `size` both fail with `KeyError` (`Err.notFound`) and
leave the state unchanged; the `Except` result carries no default or zero
value. -/
theorem c6_never_stored_raises_not_found {α : Type} (sz len : α → Nat)
    (s : FileStorageManager α) (ident : Ident)
    (h1 : lookup? s.cache ident = none) (h2 : lookup? s.storage ident = none) :
    FileStorageManager.get sz s ident = (Except.error Err.notFound, s) ∧
    FileStorageManager.size sz len s ident = (Except.error Err.notFound, s) := by
  have hg := get_miss_none sz s ident h1 h2
  refine ⟨hg, ?_⟩
  unfold FileStorageManager.size
  rw [hg]

/-- Witness for claim C6: identifier 9 in a fresh manager. -/
theorem c6_never_stored_raises_not_found_witness :
    FileStorageManager.get (fun n => n) (FileStorageManager.init Nat 4) 9
      = (Except.error Err.notFound, FileStorageManager.init Nat 4) ∧
    FileStorageManager.size (fun n => n) (fun n => n) (FileStorageManager.init Nat 4) 9
      = (Except.error Err.notFound, FileStorageManager.init Nat 4) :=
  c6_never_stored_raises_not_found (fun n => n) (fun n => n)
    (FileStorageManager.init Nat 4) 9 rfl rfl

/-- Claim C7 counterexample: at `c7S` the durable artifact for identifier 1
exists but its read fails with an underlying I/O error, yet `get` returns
`Err.notFound` — the bare `except:` converts the I/O failure into
`KeyError` instead of surfacing it as a distinct `Err.ioFailure`. -/
theorem c7_io_error_converted_counterexample :
    lookup? c7S.storage 1 = some Artifact.ioError ∧
    (FileStorageManager.get (fun _ => 1) c7S 1).1 = Except.error Err.notFound ∧
    Err.notFound ≠ Err.ioFailure :=
  ⟨rfl, rfl, by decide⟩

/-- Claim C7 (amended): when the durable artifact exists but its read fails
with an underlying I/O error (and the identifier is not cached), `get`
surfaces the failure as `Err.notFound` — the catch-all converts I/O errors,
and `get` never returns `Err.ioFailure`. -/
theorem c7_read_failure_surfaces_as_not_found {α : Type} (sz : α → Nat)
    (s : FileStorageManager α) (ident : Ident)
    (h1 : lookup? s.cache ident = none)
    (h2 : lookup? s.storage ident = some Artifact.ioError) :
    (FileStorageManager.get sz s ident).1 = Except.error Err.notFound ∧
    (FileStorageManager.get sz s ident).1 ≠ Except.error Err.ioFailure := by
  have hg := get_disk_io_error sz s ident h1 h2
  rw [hg]
  exact ⟨rfl, fun h => Err.noConfusion (Except.error.inj h)⟩

/-- Witness for the amended claim C7 at `c7S`. -/
theorem c7_read_failure_surfaces_as_not_found_witness :
    (FileStorageManager.get (fun _ => 2) c7S 1).1 = Except.error Err.notFound ∧
    (FileStorageManager.get (fun _ => 2) c7S 1).1 ≠ Except.error Err.ioFailure :=
  c7_read_failure_surfaces_as_not_found (fun _ => 2) c7S 1 rfl rfl

/-- Claim C8: `get` on a cached identifier (which, per the code's queue
invariant, occurs at most once in the recency queue) moves it to the tail,
most-recent, position: the new queue is the old one with the identifier
erased and re-appended, its last element is the identifier, and the
identifier occurs nowhere before the tail — so a subsequent eviction, which
removes from the head, hits strictly staler entries first. The cache map is
untouched. -/
theorem c8_cache_get_bumps_recency {α : Type} (s : FileStorageManager α)
    (ident : Ident) (ts : α)
    (h1 : lookup? s.cache ident = some ts)
    (h2 : s.cache_order.count ident ≤ 1) :
    ∃ s', FileStorageManager._cache_get s ident = some (ts, s') ∧
      s'.cache_order = s.cache_order.erase ident ++ [ident] ∧
      s'.cache_order.getLast? = some ident ∧
      ident ∉ s'.cache_order.dropLast ∧
      s'.cache = s.cache := by
  refine ⟨{ s with cache_order := s.cache_order.erase ident ++ [ident] },
    cache_get_hit s ident ts h1, rfl, List.getLast?_concat _, ?_, rfl⟩
  rw [List.dropLast_concat]
  intro hmem
  have hc : List.count ident (s.cache_order.erase ident)
      = List.count ident s.cache_order - 1 :=
    List.count_erase_self ident s.cache_order
  have hz : List.count ident (s.cache_order.erase ident) = 0 := by omega
  exact (List.count_eq_zero.mp hz) hmem

/-- Witness for claim C8 at `c8S`: getting identifier 6, the stale head of
the recency queue `[6, 5]`, moves it to the tail — the queue becomes
`[5, 6]` with 6 last — so a later eviction would remove 5 first. -/
theorem c8_cache_get_bumps_recency_witness :
    ∃ s', FileStorageManager._cache_get c8S 6 = some (7, s') ∧
      s'.cache_order = c8S.cache_order.erase 6 ++ [6] ∧
      s'.cache_order.getLast? = some 6 ∧
      (6 : Ident) ∉ s'.cache_order.dropLast ∧
      s'.cache = c8S.cache :=
  c8_cache_get_bumps_recency c8S 6 7 rfl (by decide)

/-- Claim C9: two handles built from identical content with no explicit
identifier resolve to the same identifier (the content hash is a pure
function of the timestamp and value sequences), and hence to the same
durable artifact: after both constructions the single artifact under that
identifier holds the series. -/
theorem c9_identical_content_same_identifier (sz : TimeSeries → Nat)
    (s : FileStorageManager TimeSeries) (tp1 dp1 tp2 dp2 : List Int)
    (h1 : tp1 = tp2) (h2 : dp1 = dp2) :
    (smtsInit sz s tp1 dp1 none).1
      = (smtsInit sz (smtsInit sz s tp1 dp1 none).2 tp2 dp2 none).1 ∧
    lookup? (smtsInit sz (smtsInit sz s tp1 dp1 none).2 tp2 dp2 none).2.storage
      (smtsInit sz s tp1 dp1 none).1 = some (Artifact.ok ⟨tp2, dp2⟩) := by
  subst h1
  subst h2
  exact ⟨rfl, lookup?_store_storage sz _ _ _⟩

/-- Witness for claim C9 with content `([1, 2], [3, 4])` built twice on a
fresh manager. -/
theorem c9_identical_content_same_identifier_witness :
    (smtsInit (fun _ => 1) (FileStorageManager.init TimeSeries 4) [1, 2] [3, 4] none).1
      = (smtsInit (fun _ => 1)
          (smtsInit (fun _ => 1) (FileStorageManager.init TimeSeries 4) [1, 2] [3, 4] none).2
          [1, 2] [3, 4] none).1 ∧
    lookup? (smtsInit (fun _ => 1)
        (smtsInit (fun _ => 1) (FileStorageManager.init TimeSeries 4) [1, 2] [3, 4] none).2
        [1, 2] [3, 4] none).2.storage
      (smtsInit (fun _ => 1) (FileStorageManager.init TimeSeries 4) [1, 2] [3, 4] none).1
      = some (Artifact.ok ⟨[1, 2], [3, 4]⟩) :=
  c9_identical_content_same_identifier (fun _ => 1) (FileStorageManager.init TimeSeries 4)
    [1, 2] [3, 4] [1, 2] [3, 4] rfl rfl

/-- Claim C10: `from_db` called with a non-`None` manager installs it as the
class-level default regardless of what the class attribute held before
(so the attribute is mutated even though `from_db` is documented only as a
lookup), and every handle constructed afterwards without an explicit
manager binds to exactly that manager — not to a fresh one and not to any
previously installed default — leaving the attribute equal to it. -/
theorem c10_from_db_installs_class_default (cls : Option Nat)
    (freshRef freshRef2 f : Nat) :
    smtsFromDb cls freshRef (some f) = some f ∧
    (smtsSelectSM (smtsFromDb cls freshRef (some f)) freshRef2 none).1 = f ∧
    (smtsSelectSM (smtsFromDb cls freshRef (some f)) freshRef2 none).2 = some f :=
  ⟨rfl, rfl, rfl⟩
